import Mathlib

/-!
# Verification development for `src/shares.c` (lightdm-another-gtk-greeter)

A shallow embedding of the helper routines of `shares.c`:

* the menu-widget binding (`bind_menu_widget_model`, the three model-signal
  handlers, `on_menu_widget_item_toggled`, `set_menu_widget_active_path`,
  `get_menu_widget_active_path`);
* the message-box run loop (`show_message` and its callbacks);
* the window position arithmetic (`set_window_position`) and the layout of the
  main window (`update_main_window_layout`);
* the model scan `get_model_iter_str`;
* the readers of the active selection (`get_widget_active_iter`,
  `get_widget_selection_str`, `get_widget_selection_image`,
  `get_widget_selection_int`).

Toolkit objects are represented by the part of their state that the code
reads or writes.  A `gchar*` is an `Option String` (`none` is `NULL`), a
`gint` is an `Int` and the result of a `gint` operation is reduced to 32 bits
(`gint_wrap`), a widget pointer is a natural number (its identity).
A `GtkListStore` is flat, so a `GtkTreePath` and a `GtkTreeIter` of such a
model are both represented by the row index they designate.
-/

namespace Shares

/-! ## Strings, rows and list stores -/

/-- A C string pointer: `none` is `NULL`. -/
abbrev GStr := Option String

/-- One row of a list store, restricted to its string columns. -/
abbrev Row := List GStr

/-- A `GtkListStore`: the ordered sequence of its rows. -/
abbrev ListStore := List Row

/-- A path into a list store: the single index of a depth-one path `[i]`. -/
abbrev GtkTreePath := Nat

/-- An iterator of a list store: the index of the row it stands on. -/
abbrev GtkTreeIter := Nat

/-- The call `gtk_tree_model_get(model, iter, column, &value, -1)` for a string
column: a copy of the stored string, `NULL` when the cell holds none. -/
def gtk_tree_model_get (model : ListStore) (iter : GtkTreeIter) (column : Nat) : GStr :=
  match model.get? iter with
  | some row => (row.get? column).join
  | none => none

/-- The call `gtk_tree_model_get_path(model, iter)` on a list store. -/
def gtk_tree_model_get_path (_model : ListStore) (iter : GtkTreeIter) : GtkTreePath := iter

/-- The call `gtk_tree_path_compare(a, b)` on depth-one paths: `-1`, `0` or `1`. -/
def gtk_tree_path_compare (a b : GtkTreePath) : Int :=
  if a = b then 0 else if a < b then -1 else 1

/-- The call `g_list_insert(list, data, position)` for a non-negative position: the
element lands at `position`, or at the end when the list is shorter. -/
def g_list_insert {α : Type} (list : List α) (data : α) (position : Nat) : List α :=
  list.take position ++ data :: list.drop position

/-! ## Menu items and the binding record -/

/-- A `GtkRadioMenuItem` created by the binding: its identity, its label, the
path stored under `MENU_ITEM_PATH_PROP` and its check state. -/
structure MenuItem where
  id : Nat
  label : GStr
  path : GtkTreePath
  active : Bool
deriving DecidableEq, Repr

/-- The record `MenuBinding` of the source.  `label` is the text shown by the
external label widget `binding->label`; `active` is the widget pointer
`binding->active` (`none` is `NULL`); `menu` lists the children of
`binding->menu` in display order; `menu_group` is the radio group handed to the
next created item (identities, newest first); `on_changed` tells whether a
callback was supplied and `changed_calls` counts its invocations; `next_id` is
the identity the next created widget receives. -/
structure MenuBinding where
  label : GStr
  active : Option Nat
  model_column : Nat
  menu : List MenuItem
  menu_group : List Nat
  on_changed : Bool
  changed_calls : Nat
  next_id : Nat
deriving DecidableEq, Repr

/-- The comparison `compare_menu_widget_item_path(obj, path)`. -/
def compare_menu_widget_item_path (obj : MenuItem) (path : GtkTreePath) : Int :=
  gtk_tree_path_compare path obj.path

/-- The call `g_list_find_custom(items, path, compare_menu_widget_item_path)`:
the first child whose comparison with `path` yields `0`. -/
def g_list_find_custom (items : List MenuItem) (path : GtkTreePath) : Option MenuItem :=
  items.find? (fun obj => compare_menu_widget_item_path obj path == 0)

/-- The handler `on_menu_widget_item_toggled(widget, binding)`; `widget` is looked
up by identity among the children of the menu. -/
def on_menu_widget_item_toggled (widget : Nat) (binding : MenuBinding) : MenuBinding :=
  match binding.menu.find? (fun it => it.id == widget) with
  | some it =>
    if it.active then
      { binding with
        active := some widget
        label := it.label
        changed_calls := if binding.on_changed then binding.changed_calls + 1
                         else binding.changed_calls }
    else binding
  | none => binding

/-- Writes the check state of the child with identity `widget`. -/
def set_check_state (menu : List MenuItem) (widget : Nat) (state : Bool) : List MenuItem :=
  menu.map (fun it => if it.id = widget then { it with active := state } else it)

/-- The class handler `gtk_radio_menu_item_activate` of GTK, followed by the
`toggled` emissions it causes, each delivered to `on_menu_widget_item_toggled`.
An item that is off is switched on, the other item of the group that was on is
switched off (its `toggled` comes first), then `toggled` is emitted on the
item itself.  An item that is on and is the only one on stays as it is and
nothing is emitted. -/
def gtk_menu_item_activate (widget : Nat) (binding : MenuBinding) : MenuBinding :=
  match binding.menu.find? (fun it => it.id == widget) with
  | none => binding
  | some it =>
    let others := binding.menu.filter (fun o => o.active && o.id != widget)
    if it.active then
      match others with
      | [] => binding
      | _ :: _ =>
        on_menu_widget_item_toggled widget
          { binding with menu := set_check_state binding.menu widget false }
    else
      let menu1 := set_check_state binding.menu widget true
      let menu2 := others.foldl (fun m o => set_check_state m o.id false) menu1
      let b1 := others.foldl (fun b o => on_menu_widget_item_toggled o.id b)
                  { binding with menu := menu2 }
      on_menu_widget_item_toggled widget b1

/-- The call `gtk_check_menu_item_set_active(item, is_active)`: the item is
activated only when its check state differs from the requested one. -/
def gtk_check_menu_item_set_active (widget : Nat) (is_active : Bool)
    (binding : MenuBinding) : MenuBinding :=
  match binding.menu.find? (fun it => it.id == widget) with
  | some it => if it.active != is_active then gtk_menu_item_activate widget binding else binding
  | none => binding

/-- The handler `on_menu_widget_row_inserted(model, path, iter, binding)`.  The
new radio item joins `binding->menu_group`; GTK switches a radio item on at
creation exactly when the group it is given is empty, without emitting
`toggled`.  The item stores the path of `iter` and is placed at `indices[0]`
of `path`.  The handler returns `FALSE`. -/
def on_menu_widget_row_inserted (model : ListStore) (path : GtkTreePath)
    (iter : GtkTreeIter) (binding : MenuBinding) : Bool × MenuBinding :=
  let indices0 := path
  let label := gtk_tree_model_get model iter binding.model_column
  let item : MenuItem :=
    { id := binding.next_id
      label := label
      path := gtk_tree_model_get_path model iter
      active := binding.menu_group.isEmpty }
  (false,
   { binding with
     menu_group := item.id :: binding.menu_group
     menu := g_list_insert binding.menu item indices0
     next_id := binding.next_id + 1 })

/-- The handler `on_menu_widget_row_deleted(model, path, binding)`: the first
child whose stored path equals `path` is destroyed, which removes it from the
menu.  `binding->menu_group` is left as it is (the `TODO` of the source). -/
def on_menu_widget_row_deleted (_model : ListStore) (path : GtkTreePath)
    (binding : MenuBinding) : MenuBinding :=
  match g_list_find_custom binding.menu path with
  | some item => { binding with menu := binding.menu.filter (fun it => it.id != item.id) }
  | none => binding

/-- The handler `on_menu_widget_row_changed(model, path, iter, binding)`: the
first child whose stored path equals `path` takes the label read from the
row; the external label widget takes it too when
`gtk_check_menu_item_get_active` holds of that child.  The source calls
`gtk_tree_model_get` here without the closing `-1`; the column read before the
missing terminator is `binding->model_column`, which is what is modelled. -/
def on_menu_widget_row_changed (model : ListStore) (path : GtkTreePath)
    (iter : GtkTreeIter) (binding : MenuBinding) : MenuBinding :=
  match g_list_find_custom binding.menu path with
  | some item =>
    let label := gtk_tree_model_get model iter binding.model_column
    { binding with
      menu := binding.menu.map
        (fun it => if it.id = item.id then { it with label := label } else it)
      label := if item.active then label else binding.label }
  | none => binding

/-- The traversal `gtk_tree_model_foreach(model, on_menu_widget_row_inserted,
binding)` from row `i` on, `rows` being the rows not yet visited: rows are
visited in order, each with its own path and iterator, and the walk stops when
the callback returns `TRUE`. -/
def gtk_tree_model_foreach_from (model : ListStore) :
    List Row → Nat → MenuBinding → MenuBinding
  | [], _, binding => binding
  | _ :: rows, i, binding =>
    match on_menu_widget_row_inserted model i i binding with
    | (true, b) => b
    | (false, b) => gtk_tree_model_foreach_from model rows (i + 1) b

/-- The call `gtk_tree_model_foreach(model, on_menu_widget_row_inserted, binding)`. -/
def gtk_tree_model_foreach (model : ListStore) (binding : MenuBinding) : MenuBinding :=
  gtk_tree_model_foreach_from model model 0 binding

/-- The function `bind_menu_widget_model(widget, label, model, model_column,
on_changed)` for a widget whose menu holds no items: `label` is the current
text of the external label widget, `next_id` the identity of the next widget to
be created. -/
def bind_menu_widget_model (label : GStr) (model : ListStore) (model_column : Nat)
    (on_changed : Bool) (next_id : Nat) : MenuBinding :=
  gtk_tree_model_foreach model
    { label := label
      active := none
      model_column := model_column
      menu := []
      menu_group := []
      on_changed := on_changed
      changed_calls := 0
      next_id := next_id }

/-- The function `set_menu_widget_active_path(widget, path)`. -/
def set_menu_widget_active_path (binding : MenuBinding) (path : GtkTreePath) : MenuBinding :=
  match g_list_find_custom binding.menu path with
  | some item => gtk_check_menu_item_set_active item.id true binding
  | none => binding

/-- The function `get_menu_widget_active_path(widget)`: a copy of the path stored
on `binding->active`.  With `binding->active == NULL` both `g_object_get_data`
and `gtk_tree_path_copy` fail their argument check and yield `NULL`.  A
widget that is no longer a child of the menu has been destroyed and has no
data to read: the result is `none` as well. -/
def get_menu_widget_active_path (binding : MenuBinding) : Option GtkTreePath :=
  match binding.active with
  | none => none
  | some widget => (binding.menu.find? (fun it => it.id == widget)).map (fun it => it.path)

/-! ## A bound model: the store together with its binding -/

/-- A list store with a menu bound to it. -/
structure Bound where
  model : ListStore
  binding : MenuBinding
deriving DecidableEq, Repr

/-- A mutation of the bound store.  `insert position row` is
`gtk_list_store_insert_with_values`, `remove iter` is `gtk_list_store_remove`,
`set iter row` overwrites a row (`gtk_list_store_set`). -/
inductive Mutation where
  | insert (position : Nat) (row : Row)
  | remove (iter : GtkTreeIter)
  | set (iter : GtkTreeIter) (row : Row)
deriving DecidableEq, Repr

/-- Applies a mutation to the store and delivers the signal the store emits for
it (`row-inserted`, `row-deleted`, `row-changed`) to the handler connected by
`bind_menu_widget_model`.  A mutation addressing no row changes nothing. -/
def Bound.apply (s : Bound) : Mutation → Bound
  | .insert position row =>
    let at_ := min position s.model.length
    let model := g_list_insert s.model row at_
    { model := model, binding := (on_menu_widget_row_inserted model at_ at_ s.binding).2 }
  | .remove iter =>
    if iter < s.model.length then
      let model := s.model.eraseIdx iter
      { model := model, binding := on_menu_widget_row_deleted model iter s.binding }
    else s
  | .set iter row =>
    if iter < s.model.length then
      let model := s.model.set iter row
      { model := model, binding := on_menu_widget_row_changed model iter iter s.binding }
    else s

/-- A store freshly bound to an empty menu. -/
def Bound.init (label : GStr) (model : ListStore) (model_column : Nat)
    (on_changed : Bool) (next_id : Nat) : Bound :=
  { model := model
    binding := bind_menu_widget_model label model model_column on_changed next_id }

/-- The state after a sequence of mutations. -/
def Bound.run (s : Bound) (ms : List Mutation) : Bound := ms.foldl Bound.apply s

/-- What an item shows of its row: its label and its stored path. -/
def MenuItem.view (it : MenuItem) : GStr × GtkTreePath := (it.label, it.path)

/-- What row `i` of the model prescribes for its item: the string of the label
column and the path `[i]`. -/
def row_view (model : ListStore) (column : Nat) (i : Nat) : GStr × GtkTreePath :=
  (gtk_tree_model_get model i column, i)

/-- A pick by the user of the item shown at position `i` of the menu. -/
def activate_position (binding : MenuBinding) (i : Nat) : MenuBinding :=
  match binding.menu.get? i with
  | some it => gtk_menu_item_activate it.id binding
  | none => binding

/-! ## The message box -/

/-- The constant `GTK_RESPONSE_NONE`, the sentinel id that ends a button array. -/
def GTK_RESPONSE_NONE : Int := -1

/-- The key value `GDK_KEY_Escape`. -/
def GDK_KEY_Escape : Nat := 0xff1b

/-- One entry of the array `const MessageButtonOptions* buttons`. -/
structure MessageButtonOptions where
  id : Int
  text : GStr
  text_stock_icon : GStr
  stock : GStr
deriving DecidableEq, Repr

/-- The record `MessageBoxRunInfo`: `loop_running` is
`g_main_loop_is_running(info->loop)`. -/
structure MessageBoxRunInfo where
  loop_running : Bool
  response : Int
  cancel_id : Int
deriving DecidableEq, Repr

/-- The record `MessageBoxButtonRunInfo`; its `info` field points to the one
`MessageBoxRunInfo` of the running call and is left implicit. -/
structure MessageBoxButtonRunInfo where
  id : Int
deriving DecidableEq, Repr

/-- A button placed in `greeter.ui.messagebox_buttons`. -/
structure MessageBoxButton where
  stock : GStr
  label : GStr
  image : GStr
deriving DecidableEq, Repr

/-- The widget holding the input focus, as far as `shares.c` moves it. -/
inductive Focus where
  | main_content
  | prompt_entry
  | users_widget
  | login_widget
  | messagebox_button (index : Nat)
  | elsewhere
deriving DecidableEq, Repr

/-- The part of `greeter.ui` that `show_message` reads or writes. -/
structure GreeterUI where
  main_layout_visible : Bool
  messagebox_layout_visible : Bool
  panel_layout_sensitive : Bool
  messagebox_buttons : List MessageBoxButton
  messagebox_title : GStr
  messagebox_text : GStr
  messagebox_icon : GStr
  prompt_entry_visible : Bool
  users_widget_visible : Bool
  login_widget_visible : Bool
  focus : Focus
deriving DecidableEq, Repr

/-- An event dispatched by the main loop while the message box runs: a key press
reaching `greeter.ui.messagebox_content`, or a click on the button at the given
position of `greeter.ui.messagebox_buttons`. -/
inductive Event where
  | key_press (keyval : Nat)
  | clicked (button : Nat)
deriving DecidableEq, Repr

/-- The function `stop_messagebox_loop(info, response)`. -/
def stop_messagebox_loop (info : MessageBoxRunInfo) (response : Int) : MessageBoxRunInfo :=
  let info1 := if info.loop_running then { info with loop_running := false } else info
  { info1 with response := response }

/-- The handler `on_messagebox_key_press(widget, event, info)`: its return value
and the run info it leaves. -/
def on_messagebox_key_press (keyval : Nat) (info : MessageBoxRunInfo) :
    Bool × MessageBoxRunInfo :=
  if keyval = GDK_KEY_Escape then (true, stop_messagebox_loop info info.cancel_id)
  else (false, info)

/-- The handler `on_messagebox_button_clicked(widget, button_info)`. -/
def on_messagebox_button_clicked (button_info : MessageBoxButtonRunInfo)
    (info : MessageBoxRunInfo) : MessageBoxRunInfo :=
  stop_messagebox_loop info button_info.id

/-- Delivers one event to the handler connected for it; a click that hits no
button of the box reaches no handler. -/
def dispatch (buttons_info : List MessageBoxButtonRunInfo) (e : Event)
    (info : MessageBoxRunInfo) : MessageBoxRunInfo :=
  match e with
  | .key_press keyval => (on_messagebox_key_press keyval info).2
  | .clicked button =>
    match buttons_info.get? button with
    | some button_info => on_messagebox_button_clicked button_info info
    | none => info

/-- The iterations of `g_main_loop_run(info.loop)`: events are dispatched one at
a time until the loop has been quit.  `none` is a loop that waits for ever
because no event ends it. -/
def main_loop_iterate (buttons_info : List MessageBoxButtonRunInfo) :
    MessageBoxRunInfo → List Event → Option MessageBoxRunInfo
  | _, [] => none
  | info, e :: es =>
    let info1 := dispatch buttons_info e info
    if info1.loop_running then main_loop_iterate buttons_info info1 es else some info1

/-- The call `g_main_loop_run(info.loop)`. -/
def g_main_loop_run (buttons_info : List MessageBoxButtonRunInfo)
    (info : MessageBoxRunInfo) (events : List Event) : Option MessageBoxRunInfo :=
  main_loop_iterate buttons_info { info with loop_running := true } events

/-- The function `focus_main_window()`. -/
def focus_main_window (ui : GreeterUI) : GreeterUI :=
  { ui with
    focus :=
      if ui.prompt_entry_visible then Focus.prompt_entry
      else if ui.users_widget_visible then Focus.users_widget
      else if ui.login_widget_visible then Focus.login_widget
      else Focus.main_content }

/-- The button loop of `show_message`: the array is read up to the entry whose id
is `GTK_RESPONSE_NONE`.  Each entry before it yields a button, which takes the
focus when its id is `default_id`, and a `MessageBoxButtonRunInfo` appended to
`buttons_info`.  `none` is an array without that entry, read past its end. -/
def create_buttons (default_id : Int) :
    List MessageButtonOptions → GreeterUI → List MessageBoxButtonRunInfo →
      Option (GreeterUI × List MessageBoxButtonRunInfo)
  | [], _, _ => none
  | button :: rest, ui, buttons_info =>
    if button.id = GTK_RESPONSE_NONE then some (ui, buttons_info)
    else
      let widget : MessageBoxButton :=
        match button.stock with
        | some stock => { stock := some stock, label := none, image := none }
        | none => { stock := none, label := button.text, image := button.text_stock_icon }
      let ui1 := { ui with messagebox_buttons := ui.messagebox_buttons ++ [widget] }
      let ui2 :=
        if default_id = button.id then
          { ui1 with focus := Focus.messagebox_button ui.messagebox_buttons.length }
        else ui1
      create_buttons default_id rest ui2 (buttons_info ++ [{ id := button.id }])

/-- The function `show_message(title, message_format, icon_name, icon_stock,
buttons, default_id, cancel_id, ...)` run on the interface state `ui`, with
`title` and `message` the translated title and the formatted text, and `events`
the events the user produces while the box is shown.  The result is the
returned response and the interface state at return; `none` is a call that
does not return. -/
def show_message (ui : GreeterUI) (title message icon_name icon_stock : GStr)
    (buttons : List MessageButtonOptions) (default_id cancel_id : Int)
    (events : List Event) : Option (Int × GreeterUI) :=
  let info : MessageBoxRunInfo := { loop_running := false, response := 0, cancel_id := cancel_id }
  match create_buttons default_id buttons { ui with messagebox_buttons := [] } [] with
  | none => none
  | some (ui1, buttons_info) =>
    let ui2 := { ui1 with messagebox_title := title, messagebox_text := message }
    let ui3 :=
      match icon_name, icon_stock with
      | some name, _ => { ui2 with messagebox_icon := some name }
      | none, some stock => { ui2 with messagebox_icon := some stock }
      | none, none => ui2
    let ui4 :=
      { ui3 with
        main_layout_visible := false
        messagebox_layout_visible := true
        panel_layout_sensitive := false }
    match g_main_loop_run buttons_info info events with
    | none => none
    | some info1 =>
      let ui5 :=
        { ui4 with
          messagebox_layout_visible := false
          main_layout_visible := true
          panel_layout_sensitive := true }
      some (info1.response, focus_main_window ui5)

/-- Whether an event ends the run of a box with `n` buttons: Escape, or a click
on one of the buttons. -/
def Event.ends_run (n : Nat) : Event → Bool
  | .key_press keyval => keyval == GDK_KEY_Escape
  | .clicked button => decide (button < n)

/-- The three flags of the interface that `show_message` switches: visibility of
the main layout, visibility of the message-box layout, sensitivity of the
panel layout. -/
def GreeterUI.flags (ui : GreeterUI) : Bool × Bool × Bool :=
  (ui.main_layout_visible, ui.messagebox_layout_visible, ui.panel_layout_sensitive)

/-- An interface at rest: main layout shown, message box hidden, panel sensitive. -/
def ui_idle : GreeterUI :=
  { main_layout_visible := true
    messagebox_layout_visible := false
    panel_layout_sensitive := true
    messagebox_buttons := []
    messagebox_title := none
    messagebox_text := none
    messagebox_icon := none
    prompt_entry_visible := false
    users_widget_visible := true
    login_widget_visible := false
    focus := Focus.users_widget }

/-- The interface of `ui_idle` with the panel layout made insensitive. -/
def ui_insensitive : GreeterUI := { ui_idle with panel_layout_sensitive := false }

/-- Two buttons with the ids 1 and 2. -/
def yes_no_buttons : List MessageButtonOptions :=
  [{ id := 1, text := some "Yes", text_stock_icon := none, stock := none },
   { id := 2, text := some "No", text_stock_icon := none, stock := none }]

/-- The entry that closes a button array. -/
def buttons_end : MessageButtonOptions :=
  { id := GTK_RESPONSE_NONE, text := none, text_stock_icon := none, stock := none }

/-! ## Window positions -/

/-- The record `WindowPosition`, with the fields `shares.c` reads: each
coordinate is a percentage of the container extent or an absolute pixel value,
and `anchor` tells which part of the window the point refers to. -/
structure WindowPosition where
  x_is_absolute : Bool
  x : Int
  y_is_absolute : Bool
  y : Int
  anchor_width : Int
  anchor_height : Int
deriving DecidableEq, Repr

/-- A `GdkRectangle`. -/
structure GdkRectangle where
  x : Int
  y : Int
  width : Int
  height : Int
deriving DecidableEq, Repr

/-- A `GtkRequisition`. -/
structure GtkRequisition where
  width : Int
  height : Int
deriving DecidableEq, Repr

/-- The constant `WINDOW_POSITION_CENTER`. -/
def WINDOW_POSITION_CENTER : WindowPosition :=
  { x_is_absolute := false, x := 50, y_is_absolute := false, y := 50,
    anchor_width := 0, anchor_height := 0 }

/-- The constant `WINDOW_POSITION_TOP`. -/
def WINDOW_POSITION_TOP : WindowPosition :=
  { x_is_absolute := false, x := 50, y_is_absolute := true, y := 0,
    anchor_width := 0, anchor_height := -1 }

/-- The constant `WINDOW_POSITION_BOTTOM`. -/
def WINDOW_POSITION_BOTTOM : WindowPosition :=
  { x_is_absolute := false, x := 50, y_is_absolute := false, y := 100,
    anchor_width := 0, anchor_height := 1 }

/-- The result of a `gint` operation whose exact value is `n`: the value is
reduced to the 32 bits of a `gint`, two's complement, as the compiled code
does. -/
def gint_wrap (n : Int) : Int := (n + 2147483648) % 4294967296 - 2147483648

/-- Whether an integer is a value of `gint`: between `G_MININT` and `G_MAXINT`. -/
def is_gint (n : Int) : Bool := decide (-2147483648 ≤ n) && decide (n ≤ 2147483647)

/-- The conversion of a `double` to `gint` done by an assignment: the fractional
part is dropped, rounding towards zero. -/
def double_to_gint (q : ℚ) : Int := if 0 ≤ q then ⌊q⌋ else ⌈q⌉

/-- The right-hand side of `dx = !p->x_is_absolute ? geometry.width*p->x/100.0 :
(p->x < 0) ? geometry.width + p->x : p->x;` stored into a `gint`.  The product
and the sum are `gint` operations; the division by `100.0` makes the whole
conditional a `double`, here an exact rational: for `gint` operands the
`double` quotient and the exact one have the same integer part. -/
def position_base (is_absolute : Bool) (extent v : Int) : Int :=
  double_to_gint
    (if !is_absolute then ((gint_wrap (extent * v) : Int) : ℚ) / 100
     else if v < 0 then ((gint_wrap (extent + v) : Int) : ℚ)
     else (v : ℚ))

/-- The amount subtracted by `dx -= (p->anchor.width == 0) ? size.width/2 :
(p->anchor.width > 0) ? size.width : 0;`, with the integer division of C. -/
def anchor_correction (anchor size : Int) : Int :=
  if anchor = 0 then Int.tdiv size 2 else if anchor > 0 then size else 0

/-- The values `dx` and `dy` of `set_window_position` at the call of
`gtk_window_move`. -/
def set_window_position_offsets (geometry : GdkRectangle) (size : GtkRequisition)
    (p : WindowPosition) : Int × Int :=
  let dx := position_base p.x_is_absolute geometry.width p.x
  let dy := position_base p.y_is_absolute geometry.height p.y
  let dx := gint_wrap (dx - anchor_correction p.anchor_width size.width)
  let dy := gint_wrap (dy - anchor_correction p.anchor_height size.height)
  (dx, dy)

/-- The function `set_window_position(window, p)`: the point handed to
`gtk_window_move`, for the monitor `geometry` and the preferred `size` of the
window. -/
def set_window_position (geometry : GdkRectangle) (size : GtkRequisition)
    (p : WindowPosition) : Int × Int :=
  let d := set_window_position_offsets geometry size p
  (gint_wrap (geometry.x + d.1), gint_wrap (geometry.y + d.2))

/-- The position rule as the specification words it, for one axis: the base is
`E*pct/100` truncated to an integer for a relative coordinate, `E + v` for an
absolute negative one and `v` for an absolute non-negative one; the correction
is `w/2` for anchor `0`, `w` for a positive anchor and `0` for a negative one. -/
def spec_axis_position (is_relative : Bool) (v E w anchor : Int) : Int :=
  let base := if is_relative then Int.tdiv (E * v) 100 else if v < 0 then E + v else v
  let correction := if anchor = 0 then Int.tdiv w 2 else if 0 < anchor then w else 0
  base - correction

/-- The exact value of the `gint` operation that the first assignment to `dx`
performs: the product `E * v` for a relative coordinate, the sum `E + v` for an
absolute negative one, `v` itself otherwise. -/
def axis_operand (is_absolute : Bool) (v E : Int) : Int :=
  if !is_absolute then E * v else if v < 0 then E + v else v

/-- Whether the `gint` operations of one axis stay in range: the operand of the
first assignment and the difference left by the anchor correction. -/
def axis_in_gint (is_absolute : Bool) (v E w anchor : Int) : Bool :=
  is_gint (axis_operand is_absolute v E) &&
    is_gint (spec_axis_position (!is_absolute) v E w anchor)

/-! ## Scanning a model for a string -/

/-- The function `strcmp` up to the sign of its result. -/
def strcmp (a b : String) : Int := if a = b then 0 else if a < b then -1 else 1

/-- The function `g_strcmp0`, which accepts `NULL`: `NULL` sorts before any
string and equals `NULL`. -/
def g_strcmp0 (str1 str2 : GStr) : Int :=
  match str1, str2 with
  | none, none => 0
  | none, some _ => -1
  | some _, none => 1
  | some a, some b => strcmp a b

/-- The `do ... while` loop of `get_model_iter_str` with the iterator on row
`iter`, `following` being the rows after it: the cell is compared with `value`;
on a mismatch `gtk_tree_model_iter_next` moves to the next row, or fails on the
last one and leaves the iterator invalid (`none`). -/
def get_model_iter_str_loop (model : ListStore) (column : Nat) (value : GStr) :
    List Row → GtkTreeIter → Bool × Option GtkTreeIter
  | following, iter =>
    let iter_value := gtk_tree_model_get model iter column
    let matched := g_strcmp0 iter_value value == 0
    if matched then (true, some iter)
    else
      match following with
      | [] => (false, none)
      | _ :: following1 => get_model_iter_str_loop model column value following1 (iter + 1)

/-- The function `get_model_iter_str(model, column, value, iter)`: the returned
flag and the iterator it leaves.  `gtk_tree_model_get_iter_first` fails on a
model without rows. -/
def get_model_iter_str (model : ListStore) (column : Nat) (value : GStr) :
    Bool × Option GtkTreeIter :=
  match model with
  | [] => (false, none)
  | _ :: following => get_model_iter_str_loop model column value following 0

/-! ## Widgets and their selection -/

/-- A cell of a tree model, of one of the three column types `shares.c` reads:
a string, an integer, or an image (a `GdkPixbuf*`, given by its identity,
`none` being `NULL`). -/
inductive GValue where
  | string (value : GStr)
  | int (value : Int)
  | pixbuf (value : Option Nat)
deriving DecidableEq, Repr

/-- A list model with typed columns: the ordered sequence of its rows. -/
abbrev TreeModel := List (List GValue)

/-- The call `gtk_tree_model_get_iter(model, iter, path)`: `some iter` is the
result `TRUE` with the iterator set, `none` is `FALSE`.  A `NULL` path fails the
argument check; a path beyond the last row designates no row. -/
def gtk_tree_model_get_iter (model : TreeModel) (path : Option GtkTreePath) :
    Option GtkTreeIter :=
  match path with
  | some p => if p < model.length then some p else none
  | none => none

/-- A widget as the accessors of `shares.c` see it: its kind, its model and the
selection state the toolkit keeps for it.  For a combo box `active` is what
`gtk_combo_box_get_active_iter` reports, for a tree view `selected` is what
`gtk_tree_selection_get_selected` reports, for an icon view `selected_items`
is the list returned by `gtk_icon_view_get_selected_items`; a menu widget
carries its binding.  `other` is a widget of no supported kind. -/
inductive Widget where
  | combo_box (model : TreeModel) (active : Option GtkTreeIter)
  | tree_view (model : TreeModel) (selected : Option GtkTreeIter)
  | icon_view (model : TreeModel) (selected_items : List GtkTreePath)
  | menu_widget (model : TreeModel) (binding : MenuBinding)
  | other
deriving DecidableEq, Repr

/-- The function `get_widget_model(widget)`; `none` is the `NULL` returned for a
widget of no supported kind. -/
def get_widget_model : Widget → Option TreeModel
  | .combo_box model _ => some model
  | .tree_view model _ => some model
  | .icon_view model _ => some model
  | .menu_widget model _ => some model
  | .other => none

/-- The function `get_widget_active_iter(widget, iter)`: `some iter` is the result
`TRUE` with the iterator set, `none` is `FALSE`. -/
def get_widget_active_iter : Widget → Option GtkTreeIter
  | .combo_box _ active => active
  | .tree_view _ selected => selected
  | .icon_view model selected_items =>
    match selected_items with
    | [] => none
    | path :: _ => gtk_tree_model_get_iter model (some path)
  | .menu_widget model binding =>
    gtk_tree_model_get_iter model (get_menu_widget_active_path binding)
  | .other => none

/-- The cell that `gtk_tree_model_get(model, iter, column, ...)` reads; `none`
when the model has no such row or no such column. -/
def tree_model_cell (model : Option TreeModel) (iter : GtkTreeIter) (column : Nat) :
    Option GValue :=
  match model with
  | some rows =>
    match rows.get? iter with
    | some row => row.get? column
    | none => none
  | none => none

/-- The function `get_widget_selection_str(widget, column, default_value)`.
Without a selection the result is `g_strdup(default_value)`, or `NULL` for a
`NULL` default.  With one, `gtk_tree_model_get` stores a copy of the string of
the cell; a column that holds no string is outside the contract of that call
and is represented by `NULL`. -/
def get_widget_selection_str (widget : Widget) (column : Nat) (default_value : GStr) : GStr :=
  match get_widget_active_iter widget with
  | none =>
    match default_value with
    | some s => some s
    | none => none
  | some iter =>
    match tree_model_cell (get_widget_model widget) iter column with
    | some (.string value) => value
    | _ => none

/-- The function `get_widget_selection_image(widget, column, default_value)`; a
column that holds no image is represented by `NULL`. -/
def get_widget_selection_image (widget : Widget) (column : Nat)
    (default_value : Option Nat) : Option Nat :=
  match get_widget_active_iter widget with
  | none => default_value
  | some iter =>
    match tree_model_cell (get_widget_model widget) iter column with
    | some (.pixbuf value) => value
    | _ => none

/-- The function `get_widget_selection_int(widget, column, default_value)`: with a
selection `gtk_tree_model_get` overwrites `default_value` with the integer of
the cell; a column that holds no integer leaves the variable as it was. -/
def get_widget_selection_int (widget : Widget) (column : Nat) (default_value : Int) : Int :=
  match get_widget_active_iter widget with
  | some iter =>
    match tree_model_cell (get_widget_model widget) iter column with
    | some (.int value) => value
    | _ => default_value
  | none => default_value

/-! ## The layout of the main window -/

/-- What `update_main_window_layout` reads: whether `greeter.ui.main_layout` is
`greeter.ui.main_content`, whether it is a `GtkFixed`, the configured
position and `config.appearance.position_is_relative`, the allocations of the
main content (`size`) and of the main layout (`size_layout`), the geometry of
the primary monitor, and the origin of the main layout inside the screen
window used by `gtk_widget_translate_coordinates` (`none` when the translation
fails and leaves the coordinates as they are). -/
structure MainWindowLayout where
  main_layout_is_main_content : Bool
  main_layout_is_fixed : Bool
  position : WindowPosition
  position_is_relative : Bool
  size : GdkRectangle
  size_layout : GdkRectangle
  monitor : GdkRectangle
  layout_origin : Option (Int × Int)
deriving DecidableEq, Repr

/-- The right-hand side of `x = geometry.x + !p->x_is_absolute ?
geometry.width*p->x/100.0 : (p->x < 0) ? geometry.width + p->x : p->x;` stored
into a `gint`.  The sum `geometry.x + !p->x_is_absolute` binds tighter than
`?:` and is the condition of the conditional; `origin` is that `geometry.x`. -/
def layout_base (origin : Int) (is_absolute : Bool) (extent v : Int) : Int :=
  double_to_gint
    (if gint_wrap (origin + (if is_absolute then 0 else 1)) ≠ 0 then
       ((gint_wrap (extent * v) : Int) : ℚ) / 100
     else if v < 0 then ((gint_wrap (extent + v) : Int) : ℚ)
     else (v : ℚ))

/-- The values of `x` and `y` in `update_main_window_layout` after the two
assignments and the two anchor corrections, before the translation and the
clamp.  Both assignments read `geometry.x`. -/
def update_main_window_layout_xy (geometry size : GdkRectangle) (p : WindowPosition) :
    Int × Int :=
  let x := layout_base geometry.x p.x_is_absolute geometry.width p.x
  let y := layout_base geometry.x p.y_is_absolute geometry.height p.y
  let x := gint_wrap (x - anchor_correction p.anchor_width size.width)
  let y := gint_wrap (y - anchor_correction p.anchor_height size.height)
  (x, y)

/-- The call `gtk_widget_translate_coordinates(screen_window, main_layout, x, y,
&x, &y)`: coordinates relative to the screen window become relative to the main
layout, whose origin inside the window is `origin`; the results are stored into
`gint` variables. -/
def gtk_widget_translate_coordinates (origin : Option (Int × Int)) (x y : Int) : Int × Int :=
  match origin with
  | some (ox, oy) => (gint_wrap (x - ox), gint_wrap (y - oy))
  | none => (x, y)

/-- The two `if` statements on `y` that precede `gtk_fixed_move`; the sum of the
test and the two subtractions are `gint` operations. -/
def layout_clamp_y (y height layout_height : Int) : Int :=
  let y :=
    if gint_wrap (y + height) > layout_height then
      gint_wrap (gint_wrap (layout_height - height) - 1)
    else y
  if y < 0 then 0 else y

/-- The function `update_main_window_layout()`: the point handed to
`gtk_fixed_move`, or `none` when the function returns at its first test. -/
def update_main_window_layout (s : MainWindowLayout) : Option (Int × Int) :=
  if s.main_layout_is_main_content || !s.main_layout_is_fixed then none
  else
    let geometry : GdkRectangle :=
      if s.position_is_relative then
        { x := 0, y := 0, width := s.size_layout.width, height := s.size_layout.height }
      else s.monitor
    let xy := update_main_window_layout_xy geometry s.size s.position
    let xy :=
      if !s.position_is_relative then gtk_widget_translate_coordinates s.layout_origin xy.1 xy.2
      else xy
    some (xy.1, layout_clamp_y xy.2 s.size.height s.size_layout.height)

/-- A layout 800 by 300 holding a content 400 by 300, positioned relative to the
layout at its bottom edge. -/
def layout_example : MainWindowLayout :=
  { main_layout_is_main_content := false
    main_layout_is_fixed := true
    position := WINDOW_POSITION_BOTTOM
    position_is_relative := true
    size := { x := 0, y := 0, width := 400, height := 300 }
    size_layout := { x := 0, y := 0, width := 800, height := 300 }
    monitor := { x := 0, y := 0, width := 1920, height := 1080 }
    layout_origin := none }

/-- A layout 800 by 600 holding a content 400 by 300, with the absolute vertical
position 2147483600 anchored at the near edge. -/
def layout_far : MainWindowLayout :=
  { main_layout_is_main_content := false
    main_layout_is_fixed := true
    position :=
      { x_is_absolute := false, x := 50, y_is_absolute := true, y := 2147483600,
        anchor_width := 0, anchor_height := -1 }
    position_is_relative := true
    size := { x := 0, y := 0, width := 400, height := 300 }
    size_layout := { x := 0, y := 0, width := 800, height := 600 }
    monitor := { x := 0, y := 0, width := 1920, height := 1080 }
    layout_origin := none }

/-! ## Events on a bound menu -/

/-- An event on a bound menu: a mutation of the store, which reaches the binding
through the signal handlers, or a pick by the user of the item at a position
of the menu, which reaches it through `on_menu_widget_item_toggled`. -/
inductive MenuEvent where
  | mutation (m : Mutation)
  | pick (position : Nat)
deriving DecidableEq, Repr

/-- The state after one event. -/
def Bound.step (s : Bound) : MenuEvent → Bound
  | .mutation m => s.apply m
  | .pick position => { s with binding := activate_position s.binding position }

/-- The state after a sequence of events. -/
def Bound.steps (s : Bound) (es : List MenuEvent) : Bound := es.foldl Bound.step s

/-- Whether `binding->active` is `NULL` or points to a child of the menu. -/
def MenuBinding.active_in_menu (binding : MenuBinding) : Bool :=
  match binding.active with
  | none => true
  | some widget => binding.menu.any (fun it => it.id == widget)

/-! ## The menu binding: results -/

theorem g_list_insert_at_length {α : Type} (l : List α) (x : α) (n : Nat)
    (h : l.length ≤ n) : g_list_insert l x n = l ++ [x] := by
  unfold g_list_insert
  rw [List.take_of_length_le h, List.drop_of_length_le h]

theorem foreach_from_view (model : ListStore) (column : Nat) :
    ∀ (rows : List Row) (i : Nat) (b : MenuBinding), model.drop i = rows →
      i ≤ model.length → b.model_column = column →
      b.menu.map MenuItem.view = (List.range i).map (row_view model column) →
      (gtk_tree_model_foreach_from model rows i b).menu.map MenuItem.view
        = (List.range model.length).map (row_view model column) := by
  intro rows
  induction rows with
  | nil =>
    intro i b hd hi _ hv
    have hle : model.length ≤ i := List.drop_eq_nil_iff.mp hd
    have : i = model.length := Nat.le_antisymm hi hle
    subst this
    simpa [gtk_tree_model_foreach_from] using hv
  | cons r rows ih =>
    intro i b hd hi hc hv
    have hlt : i < model.length := by
      by_contra hge
      have : model.drop i = [] := List.drop_eq_nil_iff.mpr (by omega)
      rw [this] at hd
      cases hd
    have hlen : b.menu.length = i := by
      have := congrArg List.length hv
      simpa using this
    have hd1 : model.drop (i + 1) = rows := by
      have h1 : model.drop (i + 1) = (model.drop i).drop 1 := by
        rw [List.drop_drop, Nat.add_comm]
      rw [h1, hd]
      rfl
    simp only [gtk_tree_model_foreach_from, on_menu_widget_row_inserted]
    refine ih (i + 1) _ hd1 (by omega) hc ?_
    rw [g_list_insert_at_length _ _ _ (by omega)]
    simp [List.range_succ, hv, MenuItem.view, row_view, gtk_tree_model_get_path, hc]

/-- C4: binding a model to an empty menu leaves one item per row, in row
order: the item at position `i` shows the string of row `i` in the label
column and stores the path `[i]`. -/
theorem bind_menu_widget_model_items (label : GStr) (model : ListStore)
    (model_column : Nat) (on_changed : Bool) (next_id : Nat) :
    (bind_menu_widget_model label model model_column on_changed next_id).menu.length
        = model.length ∧
    (bind_menu_widget_model label model model_column on_changed next_id).menu.map MenuItem.view
        = (List.range model.length).map (row_view model model_column) := by
  have h : (bind_menu_widget_model label model model_column on_changed next_id).menu.map
      MenuItem.view = (List.range model.length).map (row_view model model_column) := by
    unfold bind_menu_widget_model gtk_tree_model_foreach
    exact foreach_from_view model model_column model 0 _ rfl (Nat.zero_le _) rfl (by simp)
  refine ⟨?_, h⟩
  have := congrArg List.length h
  simpa using this

/-- C1: after binding the rows `a`, `b` and inserting a row `c` in front, the
store has three rows while the items at positions 0, 1, 2 store the paths
`[0]`, `[0]`, `[1]`; picking the item at position 2 makes
`get_menu_widget_active_path` return `[1]`, the path of another row. -/
theorem index_alignment_lost_on_prepend :
    ((Bound.init none [[some "a"], [some "b"]] 0 false 0).run
        [Mutation.insert 0 [some "c"]]).model
      = [[some "c"], [some "a"], [some "b"]] ∧
    ((Bound.init none [[some "a"], [some "b"]] 0 false 0).run
        [Mutation.insert 0 [some "c"]]).binding.menu.map MenuItem.view
      = [(some "c", 0), (some "a", 0), (some "b", 1)] ∧
    get_menu_widget_active_path
      (activate_position
        ((Bound.init none [[some "a"], [some "b"]] 0 false 0).run
          [Mutation.insert 0 [some "c"]]).binding 2)
      = some 1 := by
  decide

/-- C2: after binding the rows `a`, `b`, `c` and deleting the first row twice,
the store holds one row and the menu still holds two items: the second
deletion finds no item storing the path `[0]`. -/
theorem item_count_lags_after_deletions :
    ((Bound.init none [[some "a"], [some "b"], [some "c"]] 0 false 0).run
        [Mutation.remove 0, Mutation.remove 0]).model = [[some "c"]] ∧
    ((Bound.init none [[some "a"], [some "b"], [some "c"]] 0 false 0).run
        [Mutation.remove 0, Mutation.remove 0]).binding.menu.map MenuItem.view
      = [(some "b", 1), (some "c", 2)] := by
  decide

/-- C3: on a menu freshly bound to the single row `a`, selecting the path `[0]`
and reading the selection back yields no path: the first item is already
switched on, so no `toggled` is emitted and `binding->active` stays `NULL`. -/
theorem active_path_round_trip_fails_on_fresh_first_row :
    (bind_menu_widget_model none [[some "a"]] 0 false 0).menu
      = [{ id := 0, label := some "a", path := 0, active := true }] ∧
    (set_menu_widget_active_path (bind_menu_widget_model none [[some "a"]] 0 false 0) 0).active
      = none ∧
    get_menu_widget_active_path
      (set_menu_widget_active_path (bind_menu_widget_model none [[some "a"]] 0 false 0) 0)
      = none := by
  decide

/-! ## The model scan: results -/

theorem strcmp_eq_zero (a b : String) : strcmp a b = 0 ↔ a = b := by
  unfold strcmp
  by_cases h : a = b
  · simp [h]
  · simp only [h, if_false, iff_false]
    split <;> decide

theorem g_strcmp0_eq_zero (str1 str2 : GStr) : g_strcmp0 str1 str2 = 0 ↔ str1 = str2 := by
  cases str1 <;> cases str2 <;> simp [g_strcmp0, strcmp_eq_zero]

theorem drop_succ_of_drop_cons {α : Type} (l : List α) (n : Nat) (x : α) (t : List α)
    (h : l.drop n = x :: t) : n < l.length ∧ l.drop (n + 1) = t := by
  constructor
  · by_contra hge
    have : l.drop n = [] := List.drop_eq_nil_iff.mpr (by omega)
    rw [this] at h
    cases h
  · have h1 : l.drop (n + 1) = (l.drop n).drop 1 := by
      rw [List.drop_drop, Nat.add_comm]
    rw [h1, h]
    rfl

theorem get_model_iter_str_loop_spec (model : ListStore) (column : Nat) (value : GStr) :
    ∀ (following : List Row) (iter : Nat), iter < model.length →
      model.drop (iter + 1) = following →
      ((∃ i, iter ≤ i ∧ i < model.length ∧ gtk_tree_model_get model i column = value ∧
          (∀ j, iter ≤ j → j < i → gtk_tree_model_get model j column ≠ value) ∧
          get_model_iter_str_loop model column value following iter = (true, some i)) ∨
       ((∀ j, iter ≤ j → j < model.length → gtk_tree_model_get model j column ≠ value) ∧
          get_model_iter_str_loop model column value following iter = (false, none))) := by
  intro following
  induction following with
  | nil =>
    intro iter hlt hd
    have hle : model.length ≤ iter + 1 := List.drop_eq_nil_iff.mp hd
    unfold get_model_iter_str_loop
    by_cases hm : gtk_tree_model_get model iter column = value
    · left
      refine ⟨iter, Nat.le_refl _, hlt, hm, ?_, ?_⟩
      · intro j h1 h2; omega
      · simp [hm, (g_strcmp0_eq_zero _ _).mpr rfl]
    · right
      refine ⟨?_, ?_⟩
      · intro j h1 h2
        have : j = iter := by omega
        subst this
        exact hm
      · have : ¬ g_strcmp0 (gtk_tree_model_get model iter column) value = 0 :=
          fun h => hm ((g_strcmp0_eq_zero _ _).mp h)
        simp [this]
  | cons r rest ih =>
    intro iter hlt hd
    obtain ⟨hlt1, hd1⟩ := drop_succ_of_drop_cons model (iter + 1) r rest hd
    unfold get_model_iter_str_loop
    by_cases hm : gtk_tree_model_get model iter column = value
    · left
      refine ⟨iter, Nat.le_refl _, hlt, hm, ?_, ?_⟩
      · intro j h1 h2; omega
      · simp [hm, (g_strcmp0_eq_zero _ _).mpr rfl]
    · have hne : ¬ g_strcmp0 (gtk_tree_model_get model iter column) value = 0 :=
        fun h => hm ((g_strcmp0_eq_zero _ _).mp h)
      rcases ih (iter + 1) hlt1 hd1 with ⟨i, h1, h2, h3, h4, h5⟩ | ⟨h1, h2⟩
      · left
        refine ⟨i, by omega, h2, h3, ?_, ?_⟩
        · intro j hj1 hj2
          by_cases hj : j = iter
          · subst hj; exact hm
          · exact h4 j (by omega) hj2
        · simpa [hne] using h5
      · right
        refine ⟨?_, ?_⟩
        · intro j hj1 hj2
          by_cases hj : j = iter
          · subst hj; exact hm
          · exact h1 j (by omega) hj2
        · simpa [hne] using h2

theorem get_model_iter_str_cases (model : ListStore) (column : Nat) (value : GStr) :
    (∃ i, i < model.length ∧ gtk_tree_model_get model i column = value ∧
        (∀ j, j < i → gtk_tree_model_get model j column ≠ value) ∧
        get_model_iter_str model column value = (true, some i)) ∨
    ((∀ j, j < model.length → gtk_tree_model_get model j column ≠ value) ∧
        get_model_iter_str model column value = (false, none)) := by
  cases hmod : model with
  | nil =>
    right
    exact ⟨fun j hj => absurd hj (by simp), rfl⟩
  | cons r rest =>
    have h := get_model_iter_str_loop_spec (r :: rest) column value rest 0 (by simp) rfl
    rcases h with ⟨i, _, h2, h3, h4, h5⟩ | ⟨h1, h2⟩
    · left
      exact ⟨i, h2, h3, fun j hj => h4 j (Nat.zero_le _) hj, h5⟩
    · right
      exact ⟨fun j hj => h1 j (Nat.zero_le _) hj, h2⟩

/-- C10: `get_model_iter_str` is a first-match scan.  When row `i` is the row of
least index whose cell in `column` equals `value` (two `NULL`s are equal, a
`NULL` and a string are not) it returns `TRUE` with the iterator on row `i`; it
returns `FALSE` exactly when no row matches, in particular on a model without
rows. -/
theorem get_model_iter_str_first_match (model : ListStore) (column : Nat) (value : GStr) :
    (∀ i, i < model.length → gtk_tree_model_get model i column = value →
        (∀ j, j < i → gtk_tree_model_get model j column ≠ value) →
        get_model_iter_str model column value = (true, some i)) ∧
    ((get_model_iter_str model column value).1 = false ↔
        ∀ i, i < model.length → gtk_tree_model_get model i column ≠ value) ∧
    get_model_iter_str [] column value = (false, none) := by
  refine ⟨?_, ?_, rfl⟩
  · intro i hi hv hmin
    rcases get_model_iter_str_cases model column value with ⟨k, h1, h2, h3, h4⟩ | ⟨h1, _⟩
    · have hk : k = i := by
        rcases Nat.lt_trichotomy k i with h | h | h
        · exact absurd h2 (hmin k h)
        · exact h
        · exact absurd hv (h3 i h)
      rw [h4, hk]
    · exact absurd hv (h1 i hi)
  · rcases get_model_iter_str_cases model column value with ⟨k, h1, h2, _, h4⟩ | ⟨h1, h2⟩
    · rw [h4]
      constructor
      · intro h; cases h
      · intro h; exact absurd h2 (h k h1)
    · rw [h2]
      exact ⟨fun _ => h1, fun _ => rfl⟩

/-- Witness for C10: in a model whose first column holds `a`, `NULL`, `NULL`, the
scan for `NULL` stops on row 1. -/
theorem get_model_iter_str_first_match_witness :
    get_model_iter_str [[some "a"], [none], [none]] 0 none = (true, some 1) :=
  (get_model_iter_str_first_match [[some "a"], [none], [none]] 0 none).1 1
    (by decide) (by decide) (by decide)

/-! ## The message box: results -/

theorem create_buttons_terminated (default_id : Int) (sentinel : MessageButtonOptions)
    (rest : List MessageButtonOptions) (hs : sentinel.id = GTK_RESPONSE_NONE) :
    ∀ (bs : List MessageButtonOptions) (ui : GreeterUI) (acc : List MessageBoxButtonRunInfo),
      (∀ b ∈ bs, b.id ≠ GTK_RESPONSE_NONE) →
      ∃ ui1, create_buttons default_id (bs ++ sentinel :: rest) ui acc
        = some (ui1, acc ++ bs.map (fun b => { id := b.id })) := by
  intro bs
  induction bs with
  | nil =>
    intro ui acc _
    exact ⟨ui, by simp [create_buttons, hs]⟩
  | cons b bs ih =>
    intro ui acc hb
    have hne : b.id ≠ GTK_RESPONSE_NONE := hb b (List.mem_cons_self _ _)
    have hrest : ∀ x ∈ bs, x.id ≠ GTK_RESPONSE_NONE :=
      fun x hx => hb x (List.mem_cons_of_mem _ hx)
    have key : ∀ ui2 : GreeterUI, ∃ ui1,
        create_buttons default_id (bs ++ sentinel :: rest) ui2 (acc ++ [{ id := b.id }])
          = some (ui1, acc ++ (b :: bs).map (fun b => { id := b.id })) := by
      intro ui2
      obtain ⟨ui1, h1⟩ := ih ui2 (acc ++ [{ id := b.id }]) hrest
      exact ⟨ui1, by rw [h1]; simp⟩
    simp only [List.cons_append, create_buttons, hne, if_false]
    exact key _

theorem dispatch_of_not_ends (buttons_info : List MessageBoxButtonRunInfo) (e : Event)
    (info : MessageBoxRunInfo) (h : e.ends_run buttons_info.length = false) :
    dispatch buttons_info e info = info := by
  cases e with
  | key_press keyval =>
    have : keyval ≠ GDK_KEY_Escape := by simpa [Event.ends_run] using h
    simp [dispatch, on_messagebox_key_press, this]
  | clicked button =>
    have hb : buttons_info.length ≤ button := by simpa [Event.ends_run] using h
    have : buttons_info.get? button = none := List.get?_eq_none.mpr hb
    simp only [dispatch, this]

theorem main_loop_iterate_skip (buttons_info : List MessageBoxButtonRunInfo)
    (info : MessageBoxRunInfo) (hr : info.loop_running = true) (rest : List Event) :
    ∀ (pre : List Event), (∀ e ∈ pre, e.ends_run buttons_info.length = false) →
      main_loop_iterate buttons_info info (pre ++ rest)
        = main_loop_iterate buttons_info info rest := by
  intro pre
  induction pre with
  | nil => intro _; rfl
  | cons e pre ih =>
    intro h
    have he := dispatch_of_not_ends buttons_info e info (h e (List.mem_cons_self _ _))
    simp only [List.cons_append, main_loop_iterate, he, hr, if_true]
    exact ih (fun x hx => h x (List.mem_cons_of_mem _ hx))

/-- The response an ending event carries: `cancel_id` for a key press, the id of
the button for a click. -/
theorem dispatch_of_ends (buttons_info : List MessageBoxButtonRunInfo) (e : Event)
    (cancel_id : Int) (h : e.ends_run buttons_info.length = true) :
    ∃ r, dispatch buttons_info e { loop_running := true, response := 0, cancel_id := cancel_id }
        = { loop_running := false, response := r, cancel_id := cancel_id } ∧
      (∀ keyval, e = Event.key_press keyval → r = cancel_id) ∧
      (∀ button k, e = Event.clicked button →
          (buttons_info.get? button).map (fun bi => bi.id) = some k → r = k) := by
  cases e with
  | key_press keyval =>
    have hk : keyval = GDK_KEY_Escape := by simpa [Event.ends_run] using h
    refine ⟨cancel_id, ?_, fun _ _ => rfl, (fun _ _ he => by cases he)⟩
    simp [dispatch, on_messagebox_key_press, hk, stop_messagebox_loop]
  | clicked button =>
    have hb : button < buttons_info.length := by simpa [Event.ends_run] using h
    obtain ⟨bi, hbi⟩ : ∃ bi, buttons_info.get? button = some bi :=
      ⟨buttons_info.get ⟨button, hb⟩, List.get?_eq_get hb⟩
    refine ⟨bi.id, ?_, (fun _ he => by cases he), ?_⟩
    · simp only [dispatch, hbi, on_messagebox_button_clicked, stop_messagebox_loop]
      rfl
    · intro b k he hk
      cases he
      rw [hbi] at hk
      simpa using hk

theorem show_message_of_end (ui : GreeterUI) (title message icon_name icon_stock : GStr)
    (bs rest : List MessageButtonOptions) (sentinel : MessageButtonOptions)
    (default_id cancel_id : Int) (pre post : List Event) (e : Event)
    (hbs : ∀ b ∈ bs, b.id ≠ GTK_RESPONSE_NONE) (hs : sentinel.id = GTK_RESPONSE_NONE)
    (hpre : ∀ x ∈ pre, x.ends_run bs.length = false) (he : e.ends_run bs.length = true) :
    ∃ r ui1,
      show_message ui title message icon_name icon_stock (bs ++ sentinel :: rest)
          default_id cancel_id (pre ++ e :: post) = some (r, ui1) ∧
      ui1.flags = (true, false, true) ∧
      (∀ keyval, e = Event.key_press keyval → r = cancel_id) ∧
      (∀ button k, e = Event.clicked button →
          (bs.get? button).map (fun b => b.id) = some k → r = k) := by
  obtain ⟨uib, hcb⟩ := create_buttons_terminated default_id sentinel rest hs bs
    { ui with messagebox_buttons := [] } [] hbs
  have hlen : (bs.map (fun b => ({ id := b.id } : MessageBoxButtonRunInfo))).length = bs.length := by
    simp
  obtain ⟨r, hd, hkey, hclick⟩ := dispatch_of_ends
    (bs.map (fun b => ({ id := b.id } : MessageBoxButtonRunInfo))) e cancel_id (by rw [hlen]; exact he)
  have hskip := main_loop_iterate_skip
    (bs.map (fun b => ({ id := b.id } : MessageBoxButtonRunInfo)))
    { loop_running := true, response := 0, cancel_id := cancel_id } rfl (e :: post) pre
    (by rw [hlen]; exact hpre)
  have hrun : g_main_loop_run (bs.map (fun b => ({ id := b.id } : MessageBoxButtonRunInfo)))
      { loop_running := false, response := 0, cancel_id := cancel_id } (pre ++ e :: post)
      = some { loop_running := false, response := r, cancel_id := cancel_id } := by
    unfold g_main_loop_run
    simp only []
    rw [hskip]
    simp [main_loop_iterate, hd]
  simp only [List.nil_append] at hcb
  have hsm : ∃ ui1, show_message ui title message icon_name icon_stock (bs ++ sentinel :: rest)
      default_id cancel_id (pre ++ e :: post) = some (r, ui1) ∧
      ui1.flags = (true, false, true) := by
    unfold show_message
    simp only [hcb, hrun]
    exact ⟨_, rfl, by cases icon_name <;> cases icon_stock <;> rfl⟩
  obtain ⟨ui1, h1, h2⟩ := hsm
  refine ⟨r, ui1, h1, h2, hkey, ?_⟩
  · intro button k hev hk
    apply hclick button k hev
    cases hb : bs.get? button with
    | none => rw [hb] at hk; cases hk
    | some b =>
      rw [hb] at hk
      rw [List.get?_eq_getElem?] at hb
      simpa [List.get?_eq_getElem?, hb] using hk

/-- C5: the response of `show_message` is the id attached to the event that ends
the run.  For a button array `bs` closed by the sentinel, after events that do
not end the run, Escape makes the call return `cancel_id`, whatever the ids of
the buttons, and a click on the button created for the entry with id `k` makes
it return `k`. -/
theorem show_message_response (ui : GreeterUI) (title message icon_name icon_stock : GStr)
    (bs rest : List MessageButtonOptions) (sentinel : MessageButtonOptions)
    (default_id cancel_id : Int) (pre post : List Event)
    (hbs : ∀ b ∈ bs, b.id ≠ GTK_RESPONSE_NONE) (hs : sentinel.id = GTK_RESPONSE_NONE)
    (hpre : ∀ x ∈ pre, x.ends_run bs.length = false) :
    (show_message ui title message icon_name icon_stock (bs ++ sentinel :: rest)
        default_id cancel_id (pre ++ Event.key_press GDK_KEY_Escape :: post)).map Prod.fst
      = some cancel_id ∧
    ∀ button k, (bs.get? button).map (fun b => b.id) = some k →
      (show_message ui title message icon_name icon_stock (bs ++ sentinel :: rest)
          default_id cancel_id (pre ++ Event.clicked button :: post)).map Prod.fst
        = some k := by
  constructor
  · obtain ⟨r, ui1, h1, _, h3, _⟩ := show_message_of_end ui title message icon_name icon_stock
      bs rest sentinel default_id cancel_id pre post (Event.key_press GDK_KEY_Escape)
      hbs hs hpre (by simp [Event.ends_run])
    rw [h1, h3 _ rfl]
    rfl
  · intro button k hk
    have hlt : button < bs.length := by
      by_contra hge
      have : bs.get? button = none := List.get?_eq_none.mpr (by omega)
      rw [this] at hk
      cases hk
    obtain ⟨r, ui1, h1, _, _, h4⟩ := show_message_of_end ui title message icon_name icon_stock
      bs rest sentinel default_id cancel_id pre post (Event.clicked button)
      hbs hs hpre (by simp [Event.ends_run, hlt])
    rw [h1, h4 button k rfl hk]
    rfl

/-- Witness for C5: with buttons of ids 1 and 2 and `cancel_id = 2`, Escape
yields 2 and a click on the first button yields 1. -/
theorem show_message_response_witness :
    (show_message ui_idle none none none none (yes_no_buttons ++ [buttons_end])
        1 2 ([] ++ [Event.key_press GDK_KEY_Escape])).map Prod.fst = some 2 ∧
    (show_message ui_idle none none none none (yes_no_buttons ++ [buttons_end])
        1 2 ([] ++ [Event.clicked 0])).map Prod.fst = some 1 :=
  ⟨(show_message_response ui_idle none none none none yes_no_buttons [] buttons_end 1 2 [] []
      (by decide) (by decide) (by decide)).1,
   (show_message_response ui_idle none none none none yes_no_buttons [] buttons_end 1 2 [] []
      (by decide) (by decide) (by decide)).2 0 1 (by decide)⟩

/-- C7: when `show_message` returns, after a click or after Escape, the main
layout is visible, the message-box layout is hidden and the panel layout is
sensitive, for every button array and every response. -/
theorem show_message_final_state (ui : GreeterUI) (title message icon_name icon_stock : GStr)
    (bs rest : List MessageButtonOptions) (sentinel : MessageButtonOptions)
    (default_id cancel_id : Int) (pre post : List Event) (e : Event)
    (hbs : ∀ b ∈ bs, b.id ≠ GTK_RESPONSE_NONE) (hs : sentinel.id = GTK_RESPONSE_NONE)
    (hpre : ∀ x ∈ pre, x.ends_run bs.length = false) (he : e.ends_run bs.length = true) :
    ∃ r ui1,
      show_message ui title message icon_name icon_stock (bs ++ sentinel :: rest)
          default_id cancel_id (pre ++ e :: post) = some (r, ui1) ∧
      ui1.main_layout_visible = true ∧ ui1.messagebox_layout_visible = false ∧
      ui1.panel_layout_sensitive = true := by
  obtain ⟨r, ui1, h1, h2, _, _⟩ := show_message_of_end ui title message icon_name icon_stock
    bs rest sentinel default_id cancel_id pre post e hbs hs hpre he
  refine ⟨r, ui1, h1, ?_⟩
  simp only [GreeterUI.flags, Prod.mk.injEq] at h2
  exact h2

/-- Witness for C7: a box with two buttons shown over an interface whose panel
was insensitive, left by a click on the second button after a stray key. -/
theorem show_message_final_state_witness :
    ∃ r ui1,
      show_message ui_insensitive none none none none (yes_no_buttons ++ buttons_end :: [])
          1 2 ([Event.key_press 65] ++ Event.clicked 1 :: []) = some (r, ui1) ∧
      ui1.main_layout_visible = true ∧ ui1.messagebox_layout_visible = false ∧
      ui1.panel_layout_sensitive = true :=
  show_message_final_state ui_insensitive none none none none yes_no_buttons [] buttons_end
    1 2 [Event.key_press 65] [] (Event.clicked 1) (by decide) (by decide) (by decide) (by decide)

/-- C6, as the code has it: `show_message` does not put back the values it found;
it returns with the main layout visible, the message-box layout hidden and the
panel layout sensitive.  On both exit paths the three flags are the same after
the call as before it exactly when they had those values before the call. -/
theorem show_message_flags_kept_iff (ui : GreeterUI)
    (title message icon_name icon_stock : GStr)
    (bs rest : List MessageButtonOptions) (sentinel : MessageButtonOptions)
    (default_id cancel_id : Int) (pre post : List Event) (e : Event)
    (hbs : ∀ b ∈ bs, b.id ≠ GTK_RESPONSE_NONE) (hs : sentinel.id = GTK_RESPONSE_NONE)
    (hpre : ∀ x ∈ pre, x.ends_run bs.length = false) (he : e.ends_run bs.length = true) :
    ∃ r ui1,
      show_message ui title message icon_name icon_stock (bs ++ sentinel :: rest)
          default_id cancel_id (pre ++ e :: post) = some (r, ui1) ∧
      (ui1.flags = ui.flags ↔
        (ui.main_layout_visible = true ∧ ui.messagebox_layout_visible = false ∧
          ui.panel_layout_sensitive = true)) := by
  obtain ⟨r, ui1, h1, h2, _, _⟩ := show_message_of_end ui title message icon_name icon_stock
    bs rest sentinel default_id cancel_id pre post e hbs hs hpre he
  refine ⟨r, ui1, h1, ?_⟩
  rw [h2]
  simp only [GreeterUI.flags, Prod.mk.injEq]
  constructor
  · rintro ⟨a, b, c⟩
    exact ⟨a.symm, b.symm, c.symm⟩
  · rintro ⟨a, b, c⟩
    exact ⟨a.symm, b.symm, c.symm⟩

/-- Witness for C6: the box shown over the idle interface and left by Escape. -/
theorem show_message_flags_kept_iff_witness :
    ∃ r ui1,
      show_message ui_idle none none none none (yes_no_buttons ++ buttons_end :: [])
          1 2 ([] ++ Event.key_press GDK_KEY_Escape :: []) = some (r, ui1) ∧
      (ui1.flags = ui_idle.flags ↔
        (ui_idle.main_layout_visible = true ∧ ui_idle.messagebox_layout_visible = false ∧
          ui_idle.panel_layout_sensitive = true)) :=
  show_message_flags_kept_iff ui_idle none none none none yes_no_buttons [] buttons_end
    1 2 [] [] (Event.key_press GDK_KEY_Escape) (by decide) (by decide) (by decide) (by decide)

/-- C6 fails as stated: called while the panel layout is insensitive,
`show_message` returns with the panel layout sensitive, after Escape and after
a click alike, so the flags after the call differ from those before it. -/
theorem show_message_does_not_restore_flags :
    ui_insensitive.flags = (true, false, false) ∧
    (show_message ui_insensitive none none none none (yes_no_buttons ++ [buttons_end])
        1 2 [Event.key_press GDK_KEY_Escape]).map (fun res => res.2.flags)
      = some (true, false, true) ∧
    (show_message ui_insensitive none none none none (yes_no_buttons ++ [buttons_end])
        1 2 [Event.clicked 0]).map (fun res => res.2.flags)
      = some (true, false, true) := by
  decide

/-! ## The position calculator: results -/

theorem double_to_gint_div_100 (n : Int) :
    double_to_gint ((n : ℚ) / 100) = Int.tdiv n 100 := by
  unfold double_to_gint
  have h100 : ((100 : ℕ) : ℚ) = 100 := by norm_num
  by_cases hn : 0 ≤ n
  · have hq : (0 : ℚ) ≤ (n : ℚ) / 100 := by positivity
    rw [if_pos hq, ← h100, Rat.floor_intCast_div_natCast, Int.tdiv_eq_ediv hn (by norm_num)]
    norm_num
  · have hn1 : n < 0 := by omega
    have hq : ¬ (0 : ℚ) ≤ (n : ℚ) / 100 := by
      have h1 : (n : ℚ) < 0 := by exact_mod_cast hn1
      have h2 : (n : ℚ) / 100 < 0 := div_neg_of_neg_of_pos h1 (by norm_num)
      linarith
    rw [if_neg hq]
    have e : (n : ℚ) / 100 = -(((-n : Int) : ℚ) / (100 : ℕ)) := by push_cast; ring
    rw [e, Int.ceil_neg, Rat.floor_intCast_div_natCast]
    have h3 : Int.tdiv n 100 = -(Int.tdiv (-n) 100) := by rw [Int.neg_tdiv]; simp
    rw [h3, Int.tdiv_eq_ediv (by omega) (by norm_num)]
    norm_num

theorem double_to_gint_intCast (n : Int) : double_to_gint (n : ℚ) = n := by
  unfold double_to_gint
  split <;> simp

/-- A value of `gint` is left as it is by the reduction to 32 bits. -/
theorem gint_wrap_of_is_gint (n : Int) (h : is_gint n = true) : gint_wrap n = n := by
  simp only [is_gint, Bool.and_eq_true, decide_eq_true_eq] at h
  unfold gint_wrap
  omega

/-- The reduction to 32 bits yields a value of `gint`. -/
theorem is_gint_gint_wrap (n : Int) : is_gint (gint_wrap n) = true := by
  simp only [is_gint, Bool.and_eq_true, decide_eq_true_eq]
  unfold gint_wrap
  omega

/-- The value stored by the first assignment to `dx`, in integer terms. -/
theorem position_base_eq (is_absolute : Bool) (extent v : Int) :
    position_base is_absolute extent v
      = if !is_absolute then Int.tdiv (gint_wrap (extent * v)) 100
        else if v < 0 then gint_wrap (extent + v) else v := by
  unfold position_base
  cases is_absolute
  · simp only [Bool.not_false, if_true]
    exact double_to_gint_div_100 _
  · simp only [Bool.not_true, Bool.false_eq_true, if_false]
    split
    · exact double_to_gint_intCast _
    · exact double_to_gint_intCast _

/-- One axis of `set_window_position` follows the position rule when its `gint`
operations stay in range. -/
theorem position_axis_of_in_gint (is_absolute : Bool) (v E w anchor : Int)
    (h : axis_in_gint is_absolute v E w anchor = true) :
    gint_wrap (position_base is_absolute E v - anchor_correction anchor w)
      = spec_axis_position (!is_absolute) v E w anchor := by
  simp only [axis_in_gint, Bool.and_eq_true] at h
  obtain ⟨h1, h2⟩ := h
  have hbase : position_base is_absolute E v - anchor_correction anchor w
      = spec_axis_position (!is_absolute) v E w anchor := by
    rw [position_base_eq]
    unfold axis_operand at h1
    cases is_absolute
    · simp only [Bool.not_false, if_true] at h1
      simp only [Bool.not_false, if_true, spec_axis_position, anchor_correction, gt_iff_lt,
        gint_wrap_of_is_gint _ h1]
    · simp only [Bool.not_true, Bool.false_eq_true, if_false] at h1
      by_cases hv : v < 0
      · simp only [hv, if_true] at h1
        simp only [Bool.not_true, Bool.false_eq_true, if_false, hv, if_true,
          spec_axis_position, anchor_correction, gt_iff_lt, gint_wrap_of_is_gint _ h1]
      · simp only [Bool.not_true, Bool.false_eq_true, if_false, hv,
          spec_axis_position, anchor_correction, gt_iff_lt]
  rw [hbase]
  exact gint_wrap_of_is_gint _ h2

/-- C8, as the code has it: when the `gint` operations of an axis stay in range
(the product `E*pct` of a relative coordinate, the sum `E + v` of an absolute
negative one, and the difference left by the correction), the `dx` and `dy` of
`set_window_position` follow the position rule on that axis: base minus
correction, the base being `E*pct/100` truncated for a relative coordinate,
`E + v` for an absolute negative one and `v` for an absolute non-negative one,
the correction `w/2`, `w` or `0` by the sign of the anchor.  Relative 50 with
centre anchor, `E = 200`, `w = 40` gives 80; absolute -10 with far anchor,
`E = 200`, `w = 40` gives 150. -/
theorem set_window_position_offsets_spec (geometry : GdkRectangle) (size : GtkRequisition)
    (p : WindowPosition) :
    (axis_in_gint p.x_is_absolute p.x geometry.width size.width p.anchor_width = true →
      (set_window_position_offsets geometry size p).1
        = spec_axis_position (!p.x_is_absolute) p.x geometry.width size.width
            p.anchor_width) ∧
    (axis_in_gint p.y_is_absolute p.y geometry.height size.height p.anchor_height = true →
      (set_window_position_offsets geometry size p).2
        = spec_axis_position (!p.y_is_absolute) p.y geometry.height size.height
            p.anchor_height) ∧
    set_window_position_offsets { x := 0, y := 0, width := 200, height := 200 }
        { width := 40, height := 40 } WINDOW_POSITION_CENTER = (80, 80) ∧
    set_window_position_offsets { x := 0, y := 0, width := 200, height := 200 }
        { width := 40, height := 40 }
        { x_is_absolute := true, x := -10, y_is_absolute := true, y := -10,
          anchor_width := 1, anchor_height := 1 } = (150, 150) := by
  refine ⟨?_, ?_, ?_, ?_⟩
  · intro hx
    exact position_axis_of_in_gint _ _ _ _ _ hx
  · intro hy
    exact position_axis_of_in_gint _ _ _ _ _ hy
  · simp only [set_window_position_offsets, position_base_eq]
    decide
  · simp only [set_window_position_offsets, position_base_eq]
    decide

/-- Witness for C8: on a monitor 1920 by 1080 a window 400 by 300 placed at 50%
horizontally, centred, starts at `dx = 760`; placed 10 pixels from the bottom
edge with the far anchor it starts at `dy = 770`. -/
theorem set_window_position_offsets_spec_witness :
    (set_window_position_offsets { x := 0, y := 0, width := 1920, height := 1080 }
        { width := 400, height := 300 }
        { x_is_absolute := false, x := 50, y_is_absolute := true, y := -10,
          anchor_width := 0, anchor_height := 1 }).1 = 760 ∧
    (set_window_position_offsets { x := 0, y := 0, width := 1920, height := 1080 }
        { width := 400, height := 300 }
        { x_is_absolute := false, x := 50, y_is_absolute := true, y := -10,
          anchor_width := 0, anchor_height := 1 }).2 = 770 :=
  ⟨((set_window_position_offsets_spec { x := 0, y := 0, width := 1920, height := 1080 }
        { width := 400, height := 300 }
        { x_is_absolute := false, x := 50, y_is_absolute := true, y := -10,
          anchor_width := 0, anchor_height := 1 }).1 (by decide)).trans (by decide),
   ((set_window_position_offsets_spec { x := 0, y := 0, width := 1920, height := 1080 }
        { width := 400, height := 300 }
        { x_is_absolute := false, x := 50, y_is_absolute := true, y := -10,
          anchor_width := 0, anchor_height := 1 }).2.1 (by decide)).trans (by decide)⟩

/-- C8 fails as stated: on a container 1920 wide, the relative coordinate
2000000 with the near anchor gives `dx = -4549672`, because the `gint` product
`1920 * 2000000` leaves the range of `gint`; the position rule gives
`1920 * 2000000 / 100 = 38400000`. -/
theorem set_window_position_offsets_product_overflow :
    (set_window_position_offsets { x := 0, y := 0, width := 1920, height := 1080 }
        { width := 40, height := 40 }
        { x_is_absolute := false, x := 2000000, y_is_absolute := false, y := 50,
          anchor_width := -1, anchor_height := -1 }).1 = -4549672 ∧
    spec_axis_position true 2000000 1920 40 (-1) = 38400000 ∧
    is_gint 1920 = true ∧ is_gint 2000000 = true := by
  simp only [set_window_position_offsets, position_base_eq]
  decide

/-! ## Row changes: results -/

theorem compare_menu_widget_item_path_eq_zero (obj : MenuItem) (path : GtkTreePath) :
    (compare_menu_widget_item_path obj path == 0) = true ↔ obj.path = path := by
  unfold compare_menu_widget_item_path gtk_tree_path_compare
  by_cases h : path = obj.path
  · simp [h]
  · have h1 : ¬ obj.path = path := fun e => h e.symm
    simp only [h, if_false, h1, iff_false]
    split <;> decide

theorem g_list_find_custom_none (items : List MenuItem) (path : GtkTreePath)
    (h : ∀ it ∈ items, it.path ≠ path) : g_list_find_custom items path = none := by
  unfold g_list_find_custom
  rw [List.find?_eq_none]
  intro it hit hc
  exact h it hit ((compare_menu_widget_item_path_eq_zero it path).mp hc)

theorem g_list_find_custom_first (pre post : List MenuItem) (item : MenuItem)
    (path : GtkTreePath) (hpre : ∀ it ∈ pre, it.path ≠ path) (hitem : item.path = path) :
    g_list_find_custom (pre ++ item :: post) path = some item := by
  unfold g_list_find_custom
  induction pre with
  | nil =>
    simp [List.find?, (compare_menu_widget_item_path_eq_zero item path).mpr hitem]
  | cons x pre ih =>
    have hx : ¬ (compare_menu_widget_item_path x path == 0) = true :=
      fun hc => hpre x (List.mem_cons_self _ _)
        ((compare_menu_widget_item_path_eq_zero x path).mp hc)
    simp only [List.cons_append, List.find?, hx]
    exact ih (fun it hit => hpre it (List.mem_cons_of_mem _ hit))

theorem map_relabel_other (l : List MenuItem) (id : Nat) (label : GStr)
    (h : ∀ it ∈ l, it.id ≠ id) :
    l.map (fun it => if it.id = id then { it with label := label } else it) = l := by
  induction l with
  | nil => rfl
  | cons x l ih =>
    have hx : x.id ≠ id := h x (List.mem_cons_self _ _)
    simp only [List.map, hx, if_false]
    rw [ih (fun it hit => h it (List.mem_cons_of_mem _ hit))]

/-- C9, as the code has it: on `row-changed` for `path`, the first item storing
`path` takes the new label of the row; the external label widget takes the new
text when the check state of that item is on, whether or not `binding->active`
points to it, and keeps its text when the check state is off; nothing else
changes, and when no item stores `path` the binding is left as it was. -/
theorem on_menu_widget_row_changed_effect (model : ListStore) (path : GtkTreePath)
    (iter : GtkTreeIter) (binding : MenuBinding) :
    ((∀ it ∈ binding.menu, it.path ≠ path) →
      on_menu_widget_row_changed model path iter binding = binding) ∧
    (∀ pre item post, binding.menu = pre ++ item :: post →
      (∀ it ∈ pre, it.path ≠ path) → item.path = path →
      (binding.menu.map (fun it => it.id)).Nodup →
      on_menu_widget_row_changed model path iter binding
        = { binding with
            menu := pre ++
              { item with label := gtk_tree_model_get model iter binding.model_column } :: post
            label := if item.active then gtk_tree_model_get model iter binding.model_column
                     else binding.label }) := by
  constructor
  · intro h
    unfold on_menu_widget_row_changed
    rw [g_list_find_custom_none _ _ h]
  · intro pre item post hmenu hpre hitem hnd
    unfold on_menu_widget_row_changed
    rw [hmenu, g_list_find_custom_first pre post item path hpre hitem]
    rw [hmenu] at hnd
    simp only [List.map_append, List.map_cons] at hnd
    have hnd1 := List.nodup_append.mp hnd
    have hpre_id : ∀ it ∈ pre, it.id ≠ item.id := by
      intro it hit he
      exact hnd1.2.2 (List.mem_map.mpr ⟨it, hit, rfl⟩) (by rw [he]; exact List.mem_cons_self _ _)
    have hpost_id : ∀ it ∈ post, it.id ≠ item.id := by
      intro it hit he
      have := (List.nodup_cons.mp hnd1.2.1).1
      exact this (List.mem_map.mpr ⟨it, hit, he⟩)
    simp only [List.map_append, List.map_cons, if_true,
      map_relabel_other pre item.id _ hpre_id, map_relabel_other post item.id _ hpost_id]

/-- Witness for C9: a menu bound to the rows `a`, `b`, then the second row
renamed to `z`; its item is off, so the item shows `z` and the external label
keeps its text. -/
theorem on_menu_widget_row_changed_effect_witness :
    (on_menu_widget_row_changed [[some "a"], [some "z"]] 1 1
        (bind_menu_widget_model (some "old") [[some "a"], [some "b"]] 0 false 0)).menu
      = [{ id := 0, label := some "a", path := 0, active := true },
         { id := 1, label := some "z", path := 1, active := false }] ∧
    (on_menu_widget_row_changed [[some "a"], [some "z"]] 1 1
        (bind_menu_widget_model (some "old") [[some "a"], [some "b"]] 0 false 0)).label
      = some "old" := by
  rw [(on_menu_widget_row_changed_effect [[some "a"], [some "z"]] 1 1
      (bind_menu_widget_model (some "old") [[some "a"], [some "b"]] 0 false 0)).2
    [{ id := 0, label := some "a", path := 0, active := true }]
    { id := 1, label := some "b", path := 1, active := false } []
    (by decide) (by decide) (by decide) (by decide)]
  decide

/-- C9 fails as stated: on a menu freshly bound to the row `a`, `binding->active`
is `NULL`, so the item of row 0 is not the active item of the binding, yet a
`row-changed` for row 0 writes the new text into the external label widget. -/
theorem row_changed_writes_label_without_active :
    (bind_menu_widget_model (some "old") [[some "a"]] 0 false 0).active = none ∧
    (bind_menu_widget_model (some "old") [[some "a"]] 0 false 0).label = some "old" ∧
    (on_menu_widget_row_changed [[some "z"]] 0 0
        (bind_menu_widget_model (some "old") [[some "a"]] 0 false 0)).active = none ∧
    (on_menu_widget_row_changed [[some "z"]] 0 0
        (bind_menu_widget_model (some "old") [[some "a"]] 0 false 0)).label = some "z" := by
  decide

/-! ## Reading the selection: results -/

/-- C11: reading a field of the active selection.  When
`get_widget_active_iter` reports no selection, the integer and image readers
return the default they were given and the string reader returns a copy of it
(`NULL` for a `NULL` default).  When it reports the row `iter`, each reader
returns the value of that row in the requested column, whatever the default. -/
theorem get_widget_selection_default_or_row (widget : Widget) (column : Nat) :
    (get_widget_active_iter widget = none →
      (∀ d : Int, get_widget_selection_int widget column d = d) ∧
      (∀ d : Option Nat, get_widget_selection_image widget column d = d) ∧
      (∀ d : GStr, get_widget_selection_str widget column d = d)) ∧
    (∀ iter, get_widget_active_iter widget = some iter →
      (∀ v, tree_model_cell (get_widget_model widget) iter column = some (GValue.int v) →
        ∀ d, get_widget_selection_int widget column d = v) ∧
      (∀ v, tree_model_cell (get_widget_model widget) iter column = some (GValue.pixbuf v) →
        ∀ d, get_widget_selection_image widget column d = v) ∧
      (∀ v, tree_model_cell (get_widget_model widget) iter column = some (GValue.string v) →
        ∀ d, get_widget_selection_str widget column d = v)) := by
  constructor
  · intro h
    refine ⟨?_, ?_, ?_⟩
    · intro d; simp only [get_widget_selection_int, h]
    · intro d; simp only [get_widget_selection_image, h]
    · intro d
      simp only [get_widget_selection_str, h]
      cases d <;> rfl
  · intro iter h
    refine ⟨?_, ?_, ?_⟩
    · intro v hv d; simp only [get_widget_selection_int, h, hv]
    · intro v hv d; simp only [get_widget_selection_image, h, hv]
    · intro v hv d; simp only [get_widget_selection_str, h, hv]

/-- Witness for C11: a combo box over two rows with the second row active; the
integer of its column 1 is returned, not the default 99. -/
theorem get_widget_selection_default_or_row_witness :
    get_widget_selection_int
      (Widget.combo_box
        [[GValue.string (some "alice"), GValue.int 7], [GValue.string none, GValue.int (-2)]]
        (some 1)) 1 99 = -2 :=
  ((get_widget_selection_default_or_row
      (Widget.combo_box
        [[GValue.string (some "alice"), GValue.int 7], [GValue.string none, GValue.int (-2)]]
        (some 1)) 1).2 1 (by decide)).1 (-2) (by decide) 99

/-! ## The layout of the main window: results -/

/-- The value stored by the first assignment to `x`, in integer terms. -/
theorem layout_base_eq (origin : Int) (is_absolute : Bool) (extent v : Int) :
    layout_base origin is_absolute extent v
      = if gint_wrap (origin + (if is_absolute then 0 else 1)) ≠ 0 then
          Int.tdiv (gint_wrap (extent * v)) 100
        else if v < 0 then gint_wrap (extent + v) else v := by
  unfold layout_base
  by_cases h1 : gint_wrap (origin + (if is_absolute then 0 else 1)) ≠ 0
  · rw [if_pos h1, if_pos h1]
    exact double_to_gint_div_100 _
  · rw [if_neg h1, if_neg h1]
    by_cases h2 : v < 0
    · rw [if_pos h2, if_pos h2]
      exact double_to_gint_intCast _
    · rw [if_neg h2, if_neg h2]
      exact double_to_gint_intCast _

/-- With `geometry.x = 0` the first assignment of the layout is that of
`set_window_position`. -/
theorem layout_base_origin_zero (is_absolute : Bool) (extent v : Int) :
    layout_base 0 is_absolute extent v = position_base is_absolute extent v := by
  rw [layout_base_eq, position_base_eq]
  cases is_absolute
  · have h : gint_wrap (0 + 1) ≠ 0 := by decide
    simp only [Bool.false_eq_true, if_false, h, ne_eq, not_false_eq_true, if_true,
      Bool.not_false]
  · have h : ¬ gint_wrap (0 + 0) ≠ 0 := by decide
    simp only [if_true, h, if_false, Bool.not_true, Bool.false_eq_true]

/-- With a geometry whose origin is `(0, 0)` the layout computes the point of
`set_window_position`. -/
theorem update_main_window_layout_xy_origin_zero (geometry size : GdkRectangle)
    (p : WindowPosition) (hx : geometry.x = 0) (hy : geometry.y = 0) :
    update_main_window_layout_xy geometry size p
      = set_window_position geometry { width := size.width, height := size.height } p := by
  simp only [update_main_window_layout_xy, set_window_position, set_window_position_offsets,
    hx, hy, Int.zero_add, layout_base_origin_zero,
    gint_wrap_of_is_gint _ (is_gint_gint_wrap _)]

/-- C12: on the primary monitor at origin `(1920, 0)` of size 1920 by 1080, with
the absolute position `(10, 10)` anchored at the near edges and a content of
400 by 300, `update_main_window_layout` holds `(192, 108)` before the clamp,
where the origin plus the value of `set_window_position` is `(1930, 10)`. -/
theorem update_main_window_layout_xy_off_origin :
    update_main_window_layout_xy
        { x := 1920, y := 0, width := 1920, height := 1080 }
        { x := 0, y := 0, width := 400, height := 300 }
        { x_is_absolute := true, x := 10, y_is_absolute := true, y := 10,
          anchor_width := -1, anchor_height := -1 } = (192, 108) ∧
    set_window_position
        { x := 1920, y := 0, width := 1920, height := 1080 }
        { width := 400, height := 300 }
        { x_is_absolute := true, x := 10, y_is_absolute := true, y := 10,
          anchor_width := -1, anchor_height := -1 } = (1930, 10) := by
  simp only [update_main_window_layout_xy, set_window_position, set_window_position_offsets,
    layout_base_eq, position_base_eq]
  decide

/-- The clamp in integer terms: the result is never negative, and it keeps the
content inside the layout when the sum `y + h` of the test stays in range. -/
theorem layout_clamp_y_bounds (y h H : Int) :
    0 ≤ layout_clamp_y y h H ∧
    (is_gint y = true → is_gint (y + h) = true → h ≤ H → layout_clamp_y y h H + h ≤ H) := by
  constructor
  · unfold layout_clamp_y
    simp only []
    split <;> omega
  · intro hy hs hle
    simp only [is_gint, Bool.and_eq_true, decide_eq_true_eq] at hy hs
    unfold layout_clamp_y gint_wrap
    simp only []
    split_ifs <;> omega

/-- C13, as the code has it: the vertical clamp of `update_main_window_layout`.
For every computed `y`, content height `h` and layout height `H` the clamped
`y` is not negative, and when `h ≤ H` and the `gint` sum `y + h` of the test
stays in range the content ends inside the layout: `y + h ≤ H`.  When the main
layout is a `GtkFixed` other than the main content, the function moves the
content and the `y` it passes to `gtk_fixed_move` is the clamp of a `gint`. -/
theorem update_main_window_layout_clamp (s : MainWindowLayout) (y h H : Int) :
    (0 ≤ layout_clamp_y y h H ∧
      (is_gint y = true → is_gint (y + h) = true → h ≤ H →
        layout_clamp_y y h H + h ≤ H)) ∧
    (s.main_layout_is_main_content = false → s.main_layout_is_fixed = true →
      ∃ x y0, is_gint y0 = true ∧ update_main_window_layout s
        = some (x, layout_clamp_y y0 s.size.height s.size_layout.height)) := by
  refine ⟨layout_clamp_y_bounds y h H, ?_⟩
  intro h1 h2
  simp only [update_main_window_layout, h1, h2]
  refine ⟨_, _, ?_, rfl⟩
  cases s.position_is_relative
  · cases s.layout_origin with
    | none => exact is_gint_gint_wrap _
    | some o => exact is_gint_gint_wrap _
  · exact is_gint_gint_wrap _

/-- Witness for C13: a content 300 high in a layout 300 high, computed at
`y = 500`, is moved to a `y` that keeps it inside the layout. -/
theorem update_main_window_layout_clamp_witness :
    layout_clamp_y 500 300 300 + 300 ≤ 300 ∧
    ∃ x y0, is_gint y0 = true ∧ update_main_window_layout layout_example
      = some (x, layout_clamp_y y0 layout_example.size.height
          layout_example.size_layout.height) :=
  ⟨(update_main_window_layout_clamp layout_example 500 300 300).1.2
      (by decide) (by decide) (by decide),
   (update_main_window_layout_clamp layout_example 500 300 300).2 (by decide) (by decide)⟩

/-- C13 fails as stated: with the absolute vertical position 2147483600, a
content 300 high and a layout 600 high, the `gint` sum `y + 300` of the test
leaves the range of `gint` and compares below 600, so `y` is passed on
unchanged and the content ends far below the layout. -/
theorem update_main_window_layout_clamp_sum_overflow :
    update_main_window_layout layout_far = some (200, 2147483600) ∧
    layout_far.size.height = 300 ∧ layout_far.size_layout.height = 600 ∧
    layout_clamp_y 2147483600 300 600 = 2147483600 ∧
    is_gint 2147483600 = true ∧
    ¬ ((2147483600 : Int) + 300 ≤ 600) := by
  simp only [update_main_window_layout, update_main_window_layout_xy, layout_base_eq]
  decide

/-! ## The active reference: results -/

/-- C14: after binding the rows `a`, `b`, a pick of the second item and the
deletion of the second row, `binding->active` still holds the widget of the
destroyed item: it is not `NULL` and is not a child of the menu. -/
theorem active_dangles_after_row_deleted :
    ((Bound.init none [[some "a"], [some "b"]] 0 false 0).steps
        [MenuEvent.pick 1]).binding.active = some 1 ∧
    ((Bound.init none [[some "a"], [some "b"]] 0 false 0).steps
        [MenuEvent.pick 1, MenuEvent.mutation (Mutation.remove 1)]).binding.active = some 1 ∧
    ((Bound.init none [[some "a"], [some "b"]] 0 false 0).steps
        [MenuEvent.pick 1, MenuEvent.mutation (Mutation.remove 1)]).binding.menu
      = [{ id := 0, label := some "a", path := 0, active := false }] ∧
    ((Bound.init none [[some "a"], [some "b"]] 0 false 0).steps
        [MenuEvent.pick 1, MenuEvent.mutation (Mutation.remove 1)]).binding.active_in_menu
      = false := by
  decide

theorem on_menu_widget_item_toggled_keeps_set (widget : Nat) (binding : MenuBinding)
    (h : binding.active.isSome = true) :
    (on_menu_widget_item_toggled widget binding).active.isSome = true := by
  unfold on_menu_widget_item_toggled
  split
  · split
    · rfl
    · exact h
  · exact h

theorem foldl_toggled_keeps_set (others : List MenuItem) :
    ∀ (binding : MenuBinding), binding.active.isSome = true →
      (others.foldl (fun b o => on_menu_widget_item_toggled o.id b) binding).active.isSome
        = true := by
  induction others with
  | nil => intro b h; exact h
  | cons o others ih =>
    intro b h
    exact ih _ (on_menu_widget_item_toggled_keeps_set o.id b h)

theorem gtk_menu_item_activate_keeps_set (widget : Nat) (binding : MenuBinding)
    (h : binding.active.isSome = true) :
    (gtk_menu_item_activate widget binding).active.isSome = true := by
  unfold gtk_menu_item_activate
  split
  · exact h
  · simp only []
    split
    · split
      · exact h
      · exact on_menu_widget_item_toggled_keeps_set _ _ h
    · exact on_menu_widget_item_toggled_keeps_set _ _ (foldl_toggled_keeps_set _ _ h)

/-- Once `binding->active` has been set, no event on the bound menu makes it
`NULL` again. -/
theorem step_keeps_active_set (s : Bound) (e : MenuEvent)
    (h : s.binding.active.isSome = true) : (s.step e).binding.active.isSome = true := by
  cases e with
  | mutation m =>
    cases m with
    | insert position row => exact h
    | remove iter =>
      simp only [Bound.step, Bound.apply]
      split
      · simp only [on_menu_widget_row_deleted]
        split <;> exact h
      · exact h
    | set iter row =>
      simp only [Bound.step, Bound.apply]
      split
      · simp only [on_menu_widget_row_changed]
        split <;> exact h
      · exact h
  | pick position =>
    simp only [Bound.step, activate_position]
    split
    · exact gtk_menu_item_activate_keeps_set _ _ h
    · exact h

/-- A pick of the first item of a freshly bound menu leaves `binding->active`
`NULL`: the item is already on, so no `toggled` is emitted. -/
theorem active_stays_null_after_pick_of_first_item :
    ((Bound.init none [[some "a"], [some "b"]] 0 false 0).steps
        [MenuEvent.pick 0]).binding.active = none := by
  decide

end Shares
